import Mathlib

/-!
Shallow embedding of the UltraRF mesh routing engine (`src/mesh.py`) and
verification of its specification claims.

Modelling conventions:
* Python `float` values (timestamps, signal strengths, bandwidth estimates)
  are embedded as exact rationals `ℚ`.
* Python `dict`s keyed by node id are embedded as functions
  `String → Option α`; the `set` of neighbors as `String → Bool`.
* A route-announcement record (a Python `dict` that may be missing keys) is
  embedded as a structure of `Option` fields; subscript access
  (`route_data['destination']`) on a missing key raises `KeyError`, which the
  embedding models with an explicit error-carrying result type.
* `hop_count` values are Python `int`s, embedded as `ℤ`.
-/

/-- The `RouteMetric` enum of `mesh.py`: route quality classes. -/
inductive RouteMetric where
  | EXCELLENT
  | GOOD
  | FAIR
  | POOR
  | UNREACHABLE
deriving DecidableEq, Repr

/-- The `.value` of the Python enum member: 1 (best) .. 5 (worst). -/
def RouteMetric.value : RouteMetric → ℤ
  | .EXCELLENT => 1
  | .GOOD => 2
  | .FAIR => 3
  | .POOR => 4
  | .UNREACHABLE => 5

/-- The `RouteInfo` dataclass of `mesh.py`. -/
structure RouteInfo where
  destination : String
  next_hop : String
  hop_count : ℤ
  metric : RouteMetric
  last_updated : ℚ
  bandwidth_estimate : ℚ
deriving DecidableEq, Repr

/-- The `MeshNode` dataclass of `mesh.py`. The `routes` dict is carried as an
association list; the code never writes to it. -/
structure MeshNode where
  callsign : String
  node_id : String
  last_seen : ℚ
  hop_count : ℤ
  signal_strength : ℚ
  battery_level : Option ℚ
  is_gateway : Bool
  routes : List (String × RouteInfo)
deriving DecidableEq, Repr

/-- An inbound route-announcement dict. Each field is `Option` because a
Python dict may lack the key; `signal_strength` is read with `.get` (default
`0.0`), the other two with subscripting (raises `KeyError` when absent). -/
structure Announce where
  destination : Option String
  hop_count : Option ℤ
  signal_strength : Option ℚ
deriving DecidableEq, Repr

/-- The mutable state of a `MeshNetwork` instance. -/
structure MeshNetwork where
  local_callsign : String
  local_node_id : String
  nodes : String → Option MeshNode
  routing_table : String → Option RouteInfo
  neighbor_nodes : String → Bool
  route_update_interval : ℚ
  node_timeout : ℚ
  max_hop_count : ℤ

/-- Constructor `MeshNetwork.__init__`: the local node id is the callsign joined with the
integer part of the construction time; tables start empty and the
configuration constants take their fixed values. -/
def MeshNetwork.init (local_callsign : String) (t : ℚ) : MeshNetwork where
  local_callsign := local_callsign
  local_node_id := local_callsign ++ "-" ++ toString ⌊t⌋
  nodes := fun _ => none
  routing_table := fun _ => none
  neighbor_nodes := fun _ => false
  route_update_interval := 30
  node_timeout := 180
  max_hop_count := 5

/-- Method `MeshNetwork._calculate_metric`: discount the signal by 20% per hop after
the first, then bucket by fixed thresholds. -/
def MeshNetwork.calculate_metric (signal_strength : ℚ) (hop_count : ℤ) : RouteMetric :=
  let adjusted_strength := signal_strength * (4/5 : ℚ) ^ (hop_count - 1)
  if adjusted_strength > 4/5 then .EXCELLENT
  else if adjusted_strength > 3/5 then .GOOD
  else if adjusted_strength > 2/5 then .FAIR
  else if adjusted_strength > 1/5 then .POOR
  else .UNREACHABLE

/-- Method `MeshNetwork._estimate_bandwidth`: linear estimate floored at 0.1 Mbps. -/
def MeshNetwork.estimate_bandwidth (signal_strength : ℚ) : ℚ :=
  max (1/10) (signal_strength * 50)

/-- Method `MeshNetwork._is_better_route`: better metric wins; at equal metric,
fewer hops win. -/
def MeshNetwork.is_better_route (new_metric : RouteMetric) (new_hop_count : ℤ)
    (existing_route : RouteInfo) : Bool :=
  if new_metric.value < existing_route.metric.value then true
  else if new_metric.value = existing_route.metric.value &&
          new_hop_count < existing_route.hop_count then true
  else false

/-- Method `MeshNetwork.add_neighbor`: upsert the node record (fresh, with default
`battery_level`/`is_gateway`/`routes`), add to the neighbor set, and install
the direct route. -/
def MeshNetwork.add_neighbor (s : MeshNetwork) (callsign node_id : String)
    (signal_strength : ℚ) (now : ℚ) : MeshNetwork :=
  let node : MeshNode :=
    { callsign := callsign
      node_id := node_id
      last_seen := now
      hop_count := 1
      signal_strength := signal_strength
      battery_level := none
      is_gateway := false
      routes := [] }
  let route : RouteInfo :=
    { destination := node_id
      next_hop := node_id
      hop_count := 1
      metric := MeshNetwork.calculate_metric signal_strength 1
      last_updated := now
      bandwidth_estimate := MeshNetwork.estimate_bandwidth signal_strength }
  { s with
      nodes := fun id => if id = node_id then some node else s.nodes id
      neighbor_nodes := fun id => if id = node_id then true else s.neighbor_nodes id
      routing_table := fun d => if d = node_id then some route else s.routing_table d }

/-- Result of processing a (suffix of a) batch of announcements: either the
loop finished, or a `KeyError` escaped; in both cases the routing table
reflects every mutation performed before that point. -/
inductive ProcResult where
  | ok (rt : String → Option RouteInfo)
  | keyError (rt : String → Option RouteInfo)

/-- The routing table carried by a `ProcResult`. -/
def ProcResult.table : ProcResult → (String → Option RouteInfo)
  | .ok rt => rt
  | .keyError rt => rt

/-- One iteration of the loop body of `process_route_announcement`:
subscript the two required fields (raising `KeyError` when absent), skip on
too many hops or a self destination, otherwise install when there is no
existing route or the new one is better. -/
def MeshNetwork.processOne (local_node_id : String) (max_hop_count : ℤ) (now : ℚ)
    (from_node : String) (rt : String → Option RouteInfo) (route_data : Announce) :
    ProcResult :=
  match route_data.destination with
  | none => .keyError rt
  | some destination =>
    match route_data.hop_count with
    | none => .keyError rt
    | some h =>
      let hop_count := h + 1
      if hop_count > max_hop_count then .ok rt
      else if destination = local_node_id then .ok rt
      else
        let signal_strength := route_data.signal_strength.getD 0
        let metric := MeshNetwork.calculate_metric signal_strength hop_count
        let install : Bool :=
          match rt destination with
          | none => true
          | some existing_route => MeshNetwork.is_better_route metric hop_count existing_route
        if install then
          let new_route : RouteInfo :=
            { destination := destination
              next_hop := from_node
              hop_count := hop_count
              metric := metric
              last_updated := now
              bandwidth_estimate := MeshNetwork.estimate_bandwidth signal_strength }
          .ok (fun d => if d = destination then some new_route else rt d)
        else .ok rt

/-- The loop of `process_route_announcement` over the whole batch; a
`KeyError` aborts the remaining iterations but keeps earlier installs. -/
def MeshNetwork.processList (local_node_id : String) (max_hop_count : ℤ) (now : ℚ)
    (from_node : String) (rt : String → Option RouteInfo) :
    List Announce → ProcResult
  | [] => .ok rt
  | route_data :: rest =>
    match MeshNetwork.processOne local_node_id max_hop_count now from_node rt route_data with
    | .keyError rt' => .keyError rt'
    | .ok rt' => MeshNetwork.processList local_node_id max_hop_count now from_node rt' rest

/-- Method `MeshNetwork.process_route_announcement` as a state transformer: the
routing table after the call (whether or not a `KeyError` escaped). -/
def MeshNetwork.process_route_announcement (s : MeshNetwork) (from_node : String)
    (routes : List Announce) (now : ℚ) : MeshNetwork :=
  { s with
      routing_table :=
        (MeshNetwork.processList s.local_node_id s.max_hop_count now from_node
          s.routing_table routes).table }

/-- Whether `process_route_announcement` raises a `KeyError` to its caller. -/
def MeshNetwork.process_raises (s : MeshNetwork) (from_node : String)
    (routes : List Announce) (now : ℚ) : Bool :=
  match MeshNetwork.processList s.local_node_id s.max_hop_count now from_node
    s.routing_table routes with
  | .ok _ => false
  | .keyError _ => true

/-- Method `MeshNetwork.find_route`: point lookup in the routing table. -/
def MeshNetwork.find_route (s : MeshNetwork) (destination : String) : Option RouteInfo :=
  s.routing_table destination

/-- Method `MeshNetwork._cleanup_stale_routes`: delete every route older than
three update intervals. -/
def MeshNetwork.cleanup_stale_routes (s : MeshNetwork) (now : ℚ) : MeshNetwork :=
  { s with
      routing_table := fun d =>
        match s.routing_table d with
        | some route =>
          if now - route.last_updated > s.route_update_interval * 3 then none
          else some route
        | none => none }

/-- Method `MeshNetwork._cleanup_stale_nodes`: delete every node not seen within
`node_timeout`, discarding each deleted id from the neighbor set. -/
def MeshNetwork.cleanup_stale_nodes (s : MeshNetwork) (now : ℚ) : MeshNetwork :=
  { s with
      nodes := fun id =>
        match s.nodes id with
        | some node => if now - node.last_seen > s.node_timeout then none else some node
        | none => none
      neighbor_nodes := fun id =>
        match s.nodes id with
        | some node => if now - node.last_seen > s.node_timeout then false else s.neighbor_nodes id
        | none => s.neighbor_nodes id }

/-- States reachable through the mutating operations of `MeshNetwork`, with
arbitrary call arguments. -/
inductive MeshNetwork.Reachable : MeshNetwork → Prop
  | init (callsign : String) (t : ℚ) : MeshNetwork.Reachable (MeshNetwork.init callsign t)
  | add_neighbor {s : MeshNetwork} (callsign node_id : String) (signal_strength now : ℚ) :
      MeshNetwork.Reachable s →
      MeshNetwork.Reachable (s.add_neighbor callsign node_id signal_strength now)
  | process {s : MeshNetwork} (from_node : String) (routes : List Announce) (now : ℚ) :
      MeshNetwork.Reachable s →
      MeshNetwork.Reachable (s.process_route_announcement from_node routes now)
  | cleanup_routes {s : MeshNetwork} (now : ℚ) :
      MeshNetwork.Reachable s → MeshNetwork.Reachable (s.cleanup_stale_routes now)
  | cleanup_nodes {s : MeshNetwork} (now : ℚ) :
      MeshNetwork.Reachable s → MeshNetwork.Reachable (s.cleanup_stale_nodes now)

/-- The metric classification exactly as §4.2 of the specification words it:
`adjusted = signalStrength × 0.8^(hopCount − 1)`, then thresholds
`> 0.8 → 1`, `> 0.6 → 2`, `> 0.4 → 3`, `> 0.2 → 4`, else `5`.
Spec-side definition, kept separate for comparison with the code's
`MeshNetwork.calculate_metric`. -/
def classify_spec (signalStrength : ℚ) (hopCount : ℤ) : RouteMetric :=
  let adjusted := signalStrength * (4/5 : ℚ) ^ (hopCount - 1)
  if adjusted > 4/5 then .EXCELLENT
  else if adjusted > 3/5 then .GOOD
  else if adjusted > 2/5 then .FAIR
  else if adjusted > 1/5 then .POOR
  else .UNREACHABLE

/-- C5: for every signal strength and every hop count ≥ 1, the code's metric
computation agrees with the spec's formula-and-threshold description, and is
total (it is a Lean function on all of ℚ × ℤ, including signals outside
`[0,1]`). -/
theorem calculate_metric_matches_spec (signalStrength : ℚ) (hopCount : ℤ)
    (h : 1 ≤ hopCount) :
    MeshNetwork.calculate_metric signalStrength hopCount =
      classify_spec signalStrength hopCount := rfl

/-- Witness for C5 at a concrete input, with a signal value outside `[0,1]`. -/
theorem calculate_metric_matches_spec_witness :
    (1 : ℤ) ≤ 2 ∧
      MeshNetwork.calculate_metric (3/2) 2 = classify_spec (3/2) 2 :=
  ⟨by decide, calculate_metric_matches_spec (3/2) 2 (by decide)⟩

/-- C6: metric monotonicity — for a fixed hop count, a higher signal strength
never yields a (numerically) worse metric class. -/
theorem calculate_metric_mono (hopCount : ℤ) (s1 s2 : ℚ) (hs : s1 ≤ s2) :
    (MeshNetwork.calculate_metric s2 hopCount).value ≤
      (MeshNetwork.calculate_metric s1 hopCount).value := by
  have hc : (0 : ℚ) < (4/5 : ℚ) ^ (hopCount - 1) :=
    zpow_pos (by norm_num) _
  have key : s1 * (4/5 : ℚ) ^ (hopCount - 1) ≤ s2 * (4/5 : ℚ) ^ (hopCount - 1) :=
    mul_le_mul_of_nonneg_right hs hc.le
  simp only [MeshNetwork.calculate_metric]
  split_ifs <;> first
    | decide
    | (exfalso; linarith)

/-- Witness for C6 at a concrete input. -/
theorem calculate_metric_mono_witness :
    (1/4 : ℚ) ≤ 9/10 ∧
      (MeshNetwork.calculate_metric (9/10) 1).value ≤
        (MeshNetwork.calculate_metric (1/4) 1).value :=
  ⟨by norm_num, calculate_metric_mono 1 (1/4) (9/10) (by norm_num)⟩

/-- The better-route rule as §4.3 of the specification words it: the new
route wins when its metric class is strictly lower (better), or the classes
are equal and the new effective hop count is strictly smaller. Spec-side
definition, for comparison with the code's `MeshNetwork.is_better_route`. -/
def BetterRouteSpec (newMetric : RouteMetric) (newHopCount : ℤ)
    (existing : RouteInfo) : Prop :=
  newMetric.value < existing.metric.value ∨
    (newMetric.value = existing.metric.value ∧ newHopCount < existing.hop_count)

instance (m : RouteMetric) (hc : ℤ) (ex : RouteInfo) :
    Decidable (BetterRouteSpec m hc ex) := by
  unfold BetterRouteSpec; infer_instance

/-- The code's tie-break function decides exactly the spec's rule. -/
lemma is_better_route_iff (m : RouteMetric) (hc : ℤ) (ex : RouteInfo) :
    MeshNetwork.is_better_route m hc ex = true ↔ BetterRouteSpec m hc ex := by
  simp only [MeshNetwork.is_better_route, BetterRouteSpec]
  split_ifs with h1 h2 <;> simp_all

/-- C2: for an announcement that passes the hop-limit and self-destination
checks, the new route is installed (at its destination key only, with
`nextHop = fromNode` and `lastUpdated = now`) precisely when there is no
existing entry or the spec's better-route rule holds; otherwise the routing
table — including the existing entry's `lastUpdated` — is returned completely
unmodified. -/
theorem better_route_install_iff (local_node_id : String) (max_hop_count : ℤ)
    (now : ℚ) (from_node : String) (rt : String → Option RouteInfo) (a : Announce)
    (d : String) (h : ℤ) (hd : a.destination = some d) (hh : a.hop_count = some h)
    (hhop : ¬ h + 1 > max_hop_count) (hself : d ≠ local_node_id) :
    (∀ ex, rt d = some ex →
      ¬ BetterRouteSpec (MeshNetwork.calculate_metric (a.signal_strength.getD 0) (h + 1))
          (h + 1) ex →
      MeshNetwork.processOne local_node_id max_hop_count now from_node rt a = .ok rt) ∧
    ((rt d = none ∨ ∃ ex, rt d = some ex ∧
        BetterRouteSpec (MeshNetwork.calculate_metric (a.signal_strength.getD 0) (h + 1))
          (h + 1) ex) →
      MeshNetwork.processOne local_node_id max_hop_count now from_node rt a =
        .ok (fun d' => if d' = d then
          some { destination := d
                 next_hop := from_node
                 hop_count := h + 1
                 metric := MeshNetwork.calculate_metric (a.signal_strength.getD 0) (h + 1)
                 last_updated := now
                 bandwidth_estimate :=
                   MeshNetwork.estimate_bandwidth (a.signal_strength.getD 0) }
          else rt d')) := by
  constructor
  · intro ex hex hnb
    simp only [MeshNetwork.processOne, hd, hh]
    rw [if_neg hhop, if_neg hself, hex]
    exact if_neg (fun hb => hnb ((is_better_route_iff _ _ _).mp hb))
  · intro hcase
    simp only [MeshNetwork.processOne, hd, hh]
    rw [if_neg hhop, if_neg hself]
    rcases hcase with hnone | ⟨ex, hex, hb⟩
    · rw [hnone]
      exact if_pos rfl
    · rw [hex]
      exact if_pos ((is_better_route_iff _ _ _).mpr hb)

/-- Existing table entry used by the C2 witness: metric class 2 (GOOD),
3 hops. -/
def c2_existing : RouteInfo :=
  { destination := "node-B", next_hop := "node-X", hop_count := 3, metric := .GOOD,
    last_updated := 50, bandwidth_estimate := 10 }

/-- Routing table holding only `c2_existing`. -/
def c2_rt : String → Option RouteInfo :=
  fun d => if d = "node-B" then some c2_existing else none

/-- Candidate classifying to (metric 2, hops 2): signal 0.9 at effective hop
2 adjusts to 0.72, class GOOD. -/
def c2_winner : Announce := ⟨some "node-B", some 1, some (9/10)⟩

/-- Candidate classifying to (metric 3, hops 1): signal 0.5 at effective hop
1 adjusts to 0.5, class FAIR. -/
def c2_loser : Announce := ⟨some "node-B", some 0, some (1/2)⟩

/-- Witness for C2, realizing the spec's concrete scenario: against the
existing (metric 2, hops 3) entry, the (metric 2, hops 2) candidate is
installed and the (metric 3, hops 1) candidate leaves the table unchanged. -/
theorem better_route_install_iff_witness :
    (MeshNetwork.processOne "L" 5 100 "node-A" c2_rt c2_winner =
      .ok (fun d' => if d' = "node-B" then
        some { destination := "node-B"
               next_hop := "node-A"
               hop_count := 1 + 1
               metric := MeshNetwork.calculate_metric (c2_winner.signal_strength.getD 0) (1 + 1)
               last_updated := 100
               bandwidth_estimate :=
                 MeshNetwork.estimate_bandwidth (c2_winner.signal_strength.getD 0) }
        else c2_rt d')) ∧
    MeshNetwork.processOne "L" 5 100 "node-A" c2_rt c2_loser = .ok c2_rt := by
  constructor
  · exact (better_route_install_iff "L" 5 100 "node-A" c2_rt c2_winner "node-B" 1
      rfl rfl (by decide) (by decide)).2
      (Or.inr ⟨c2_existing, by decide,
        by norm_num [BetterRouteSpec, MeshNetwork.calculate_metric, RouteMetric.value,
          c2_winner, c2_existing]⟩)
  · exact (better_route_install_iff "L" 5 100 "node-A" c2_rt c2_loser "node-B" 0
      rfl rfl (by decide) (by decide)).1 c2_existing (by decide)
      (by norm_num [BetterRouteSpec, MeshNetwork.calculate_metric, RouteMetric.value,
        c2_loser, c2_existing])

/-- Announcement with no `destination` key, used against claim C3. -/
def c3_bad : Announce := ⟨none, some 1, some (9/10)⟩

/-- Well-formed announcement following the malformed one in the C3 batch. -/
def c3_good : Announce := ⟨some "node-B", some 1, some (9/10)⟩

/-- Counterexample to C3 as stated: on the batch `[c3_bad, c3_good]` the
processor raises a `KeyError` to its caller (it is not silently skipped) and
the valid announcement after the malformed one is never processed — no route
to `"node-B"` is installed. -/
theorem missing_field_aborts_counterexample :
    MeshNetwork.process_raises (MeshNetwork.init "L" 0) "node-A" [c3_bad, c3_good] 1 = true ∧
    ((MeshNetwork.init "L" 0).process_route_announcement "node-A" [c3_bad, c3_good]
      1).routing_table "node-B" = none := ⟨rfl, rfl⟩

/-- C3 amended: an announcement whose dict lacks the `destination` or the
`hop_count` key raises a `KeyError` that propagates out of the batch loop:
the malformed announcement and every announcement after it are not processed
(the routing table stays exactly as it was when the malformed entry was
reached), rather than being silently skipped. -/
theorem missing_field_keyerror (local_node_id : String) (max_hop_count : ℤ)
    (now : ℚ) (from_node : String) (rt : String → Option RouteInfo)
    (a : Announce) (rest : List Announce)
    (hmiss : a.destination = none ∨ a.hop_count = none) :
    MeshNetwork.processList local_node_id max_hop_count now from_node rt (a :: rest) =
      .keyError rt := by
  rcases hmiss with hmiss | hmiss
  · simp [MeshNetwork.processList, MeshNetwork.processOne, hmiss]
  · cases hdest : a.destination with
    | none => simp [MeshNetwork.processList, MeshNetwork.processOne, hdest]
    | some d => simp [MeshNetwork.processList, MeshNetwork.processOne, hdest, hmiss]

/-- Witness for the amended C3 at a concrete input. -/
theorem missing_field_keyerror_witness :
    (c3_bad.destination = none ∨ c3_bad.hop_count = none) ∧
      MeshNetwork.processList "L" 5 1 "node-A" (fun _ => none) [c3_bad, c3_good] =
        .keyError (fun _ => none) :=
  ⟨Or.inl rfl,
    missing_field_keyerror "L" 5 1 "node-A" (fun _ => none) c3_bad [c3_good]
      (Or.inl rfl)⟩

/-- C4: an announcement whose effective hop count `hopCount + 1` exceeds
`maxHopCount`, or whose destination is the local node id, is skipped with no
error and no install — the whole routing table (in particular any entry for
that destination) is returned unchanged. -/
theorem hop_or_self_skipped (local_node_id : String) (max_hop_count : ℤ)
    (now : ℚ) (from_node : String) (rt : String → Option RouteInfo)
    (a : Announce) (d : String) (h : ℤ)
    (hd : a.destination = some d) (hh : a.hop_count = some h)
    (hskip : h + 1 > max_hop_count ∨ d = local_node_id) :
    MeshNetwork.processOne local_node_id max_hop_count now from_node rt a = .ok rt := by
  simp only [MeshNetwork.processOne, hd, hh]
  rcases hskip with hskip | hskip
  · rw [if_pos hskip]
  · by_cases h1 : h + 1 > max_hop_count
    · rw [if_pos h1]
    · rw [if_neg h1, if_pos hskip]

/-- Witness for C4: with `maxHopCount = 5`, an announcement carrying
`hopCount = 5` (effective 6) is rejected and the table is unchanged. -/
theorem hop_or_self_skipped_witness :
    ((5 : ℤ) + 1 > 5 ∨ "node-B" = "L") ∧
      MeshNetwork.processOne "L" 5 100 "node-A" c2_rt ⟨some "node-B", some 5, some (9/10)⟩ =
        .ok c2_rt :=
  ⟨Or.inl (by decide),
    hop_or_self_skipped "L" 5 100 "node-A" c2_rt ⟨some "node-B", some 5, some (9/10)⟩
      "node-B" 5 rfl rfl (Or.inl (by decide))⟩

/-- Route aged 91 s at the C7 scenario's `now = 100`. -/
def c7_stale : RouteInfo :=
  { destination := "old", next_hop := "old", hop_count := 1, metric := .GOOD,
    last_updated := 9, bandwidth_estimate := 1 }

/-- Route aged 89 s at the C7 scenario's `now = 100`. -/
def c7_fresh : RouteInfo :=
  { destination := "fresh", next_hop := "fresh", hop_count := 1, metric := .GOOD,
    last_updated := 11, bandwidth_estimate := 1 }

/-- State for the C7 scenario: default 30 s update interval, one route 91 s
old and one 89 s old. -/
def c7_state : MeshNetwork :=
  { MeshNetwork.init "M" 0 with
      routing_table := fun d =>
        if d = "old" then some c7_stale
        else if d = "fresh" then some c7_fresh else none }

/-- C7: a maintenance pass keeps exactly the routes with
`now − lastUpdated ≤ 3 × routeUpdateInterval` and removes all others;
concretely (interval 30 s), a route 91 s old is evicted and one 89 s old
survives. -/
theorem cleanup_stale_routes_exact :
    (∀ (s : MeshNetwork) (now : ℚ) (d : String) (r : RouteInfo),
      (s.cleanup_stale_routes now).routing_table d = some r ↔
        s.routing_table d = some r ∧
          ¬ now - r.last_updated > s.route_update_interval * 3) ∧
    (c7_state.cleanup_stale_routes 100).routing_table "old" = none ∧
    (c7_state.cleanup_stale_routes 100).routing_table "fresh" = some c7_fresh := by
  refine ⟨?_, ?_, ?_⟩
  · intro s now d r
    simp only [MeshNetwork.cleanup_stale_routes]
    cases hrt : s.routing_table d with
    | none => simp
    | some route =>
      by_cases hst : now - route.last_updated > s.route_update_interval * 3
      · simp only [if_pos hst]
        constructor
        · intro hc
          exact absurd hc (by simp)
        · rintro ⟨hr, hkeep⟩
          exact absurd (Option.some.inj hr ▸ hst) hkeep
      · simp only [if_neg hst]
        constructor
        · rintro hr
          exact ⟨hr, Option.some.inj hr ▸ hst⟩
        · exact fun hp => hp.1
  · norm_num [MeshNetwork.cleanup_stale_routes, c7_state, c7_stale, MeshNetwork.init]
  · norm_num [MeshNetwork.cleanup_stale_routes, c7_state, c7_stale, c7_fresh,
      MeshNetwork.init]
    simp
    norm_num

/-- Node last seen 181 s before the C8 scenario's `now = 200`. -/
def c8_stale : MeshNode :=
  { callsign := "S1", node_id := "gone", last_seen := 19, hop_count := 1,
    signal_strength := 1/2, battery_level := none, is_gateway := false, routes := [] }

/-- Node last seen exactly 180 s before the C8 scenario's `now = 200`. -/
def c8_edge : MeshNode :=
  { callsign := "S2", node_id := "edge", last_seen := 20, hop_count := 1,
    signal_strength := 1/2, battery_level := none, is_gateway := false, routes := [] }

/-- State for the C8 scenario: default 180 s node timeout, one node 181 s
old and one exactly at the timeout, both in the neighbor set. -/
def c8_state : MeshNetwork :=
  { MeshNetwork.init "M" 0 with
      nodes := fun id =>
        if id = "gone" then some c8_stale
        else if id = "edge" then some c8_edge else none
      neighbor_nodes := fun id => id = "gone" || id = "edge" }

/-- C8: a maintenance pass keeps exactly the nodes with
`now − lastSeen ≤ nodeTimeout`, and an id stays in the neighbor set exactly
when it was there before and was not just evicted from the node map;
concretely (timeout 180 s), a node 181 s old is removed from both the node
map and the neighbor set, and one exactly at the timeout is kept. -/
theorem cleanup_stale_nodes_exact :
    (∀ (s : MeshNetwork) (now : ℚ) (id : String) (n : MeshNode),
      (s.cleanup_stale_nodes now).nodes id = some n ↔
        s.nodes id = some n ∧ ¬ now - n.last_seen > s.node_timeout) ∧
    (∀ (s : MeshNetwork) (now : ℚ) (id : String),
      (s.cleanup_stale_nodes now).neighbor_nodes id = true ↔
        s.neighbor_nodes id = true ∧
          ∀ n, s.nodes id = some n → ¬ now - n.last_seen > s.node_timeout) ∧
    (c8_state.cleanup_stale_nodes 200).nodes "gone" = none ∧
    (c8_state.cleanup_stale_nodes 200).neighbor_nodes "gone" = false ∧
    (c8_state.cleanup_stale_nodes 200).nodes "edge" = some c8_edge ∧
    (c8_state.cleanup_stale_nodes 200).neighbor_nodes "edge" = true := by
  refine ⟨?_, ?_, ?_, ?_, ?_, ?_⟩
  · intro s now id n
    simp only [MeshNetwork.cleanup_stale_nodes]
    cases hn : s.nodes id with
    | none => simp
    | some node =>
      by_cases hst : now - node.last_seen > s.node_timeout
      · simp only [if_pos hst]
        constructor
        · intro hc
          exact absurd hc (by simp)
        · rintro ⟨hr, hkeep⟩
          exact absurd (Option.some.inj hr ▸ hst) hkeep
      · simp only [if_neg hst]
        constructor
        · exact fun hr => ⟨hr, Option.some.inj hr ▸ hst⟩
        · exact fun hp => hp.1
  · intro s now id
    simp only [MeshNetwork.cleanup_stale_nodes]
    cases hn : s.nodes id with
    | none => simp
    | some node =>
      by_cases hst : now - node.last_seen > s.node_timeout
      · simp only [if_pos hst]
        constructor
        · intro hc
          exact absurd hc (by simp)
        · rintro ⟨-, hall⟩
          exact absurd hst (hall node rfl)
      · simp only [if_neg hst]
        exact ⟨fun hr => ⟨hr, fun n hn' => Option.some.inj hn' ▸ hst⟩, fun hp => hp.1⟩
  · norm_num [MeshNetwork.cleanup_stale_nodes, c8_state, c8_stale, MeshNetwork.init]
  · norm_num [MeshNetwork.cleanup_stale_nodes, c8_state, c8_stale, MeshNetwork.init]
  · norm_num [MeshNetwork.cleanup_stale_nodes, c8_state, c8_stale, c8_edge,
      MeshNetwork.init]
    simp
    norm_num
  · norm_num [MeshNetwork.cleanup_stale_nodes, c8_state, c8_stale, c8_edge,
      MeshNetwork.init]
    simp
    norm_num

/-- C9: an announcement with no `signal_strength` key defaults to signal
`0.0`, classifying to metric class 5 (UNREACHABLE); when it passes the
hop/self checks and no entry exists for its destination, the class-5 route is
installed and returned by `find_route` (with bandwidth floored at 0.1). -/
theorem missing_signal_installs_unreachable (s : MeshNetwork) (from_node d : String)
    (h : ℤ) (now : ℚ) (a : Announce)
    (h1 : a.destination = some d) (h2 : a.hop_count = some h)
    (h3 : a.signal_strength = none) (h4 : ¬ h + 1 > s.max_hop_count)
    (h5 : d ≠ s.local_node_id) (h6 : s.routing_table d = none) :
    (s.process_route_announcement from_node [a] now).find_route d =
      some { destination := d, next_hop := from_node, hop_count := h + 1,
             metric := .UNREACHABLE, last_updated := now,
             bandwidth_estimate := 1/10 } := by
  simp only [MeshNetwork.process_route_announcement, MeshNetwork.find_route,
    MeshNetwork.processList, MeshNetwork.processOne, h1, h2, h3]
  rw [if_neg h4, if_neg h5, h6]
  have hm : MeshNetwork.calculate_metric ((none : Option ℚ).getD 0) (h + 1) =
      .UNREACHABLE := by
    have hc : (0 : ℚ) < (4/5 : ℚ) ^ (h + 1 - 1) := zpow_pos (by norm_num) _
    simp only [MeshNetwork.calculate_metric, Option.getD_none, zero_mul]
    norm_num
  have hb : MeshNetwork.estimate_bandwidth ((none : Option ℚ).getD 0) = 1/10 := by
    simp [MeshNetwork.estimate_bandwidth]
  rw [hm, hb]
  simp [ProcResult.table]

/-- Witness for C9 at a concrete input: a fresh engine receives one
announcement lacking `signal_strength`; `find_route` then returns the
installed class-5 route. -/
theorem missing_signal_installs_unreachable_witness :
    ((⟨some "node-B", some 1, none⟩ : Announce).destination = some "node-B") ∧
      ((MeshNetwork.init "L" 0).process_route_announcement "node-A"
          [⟨some "node-B", some 1, none⟩] 7).find_route "node-B" =
        some { destination := "node-B", next_hop := "node-A", hop_count := 1 + 1,
               metric := .UNREACHABLE, last_updated := 7,
               bandwidth_estimate := 1/10 } :=
  ⟨rfl,
    missing_signal_installs_unreachable (MeshNetwork.init "L" 0) "node-A" "node-B" 1 7
      ⟨some "node-B", some 1, none⟩ rfl rfl rfl (by decide) (by decide) rfl⟩

/-- C10: `add_neighbor` on an id already present in the node map replaces the
stored record with a freshly constructed one — `battery_level`, `is_gateway`
and the per-node `routes` map come back as their defaults (`none`, `false`,
empty), not as the previously stored values. -/
theorem add_neighbor_resets_node (s : MeshNetwork) (callsign node_id : String)
    (signal_strength now : ℚ) (old : MeshNode)
    (hold : s.nodes node_id = some old) :
    (s.add_neighbor callsign node_id signal_strength now).nodes node_id =
      some { callsign := callsign, node_id := node_id, last_seen := now,
             hop_count := 1, signal_strength := signal_strength,
             battery_level := none, is_gateway := false, routes := [] } := by
  simp [MeshNetwork.add_neighbor]

/-- Node record with non-default advisory fields, overwritten in the C10
witness. -/
def c10_old : MeshNode :=
  { callsign := "OLD", node_id := "node-B", last_seen := 1, hop_count := 2,
    signal_strength := 1/4, battery_level := some (3/4), is_gateway := true,
    routes := [("x", c2_existing)] }

/-- State holding `c10_old`, used by the C10 witness. -/
def c10_state : MeshNetwork :=
  { MeshNetwork.init "L" 0 with
      nodes := fun id => if id = "node-B" then some c10_old else none }

/-- Witness for C10 at a concrete input: the stored node had a battery level,
the gateway flag and a non-empty routes map; after the refresh all three are
back to their defaults. -/
theorem add_neighbor_resets_node_witness :
    c10_state.nodes "node-B" = some c10_old ∧
      (c10_state.add_neighbor "NEW" "node-B" (9/10) 42).nodes "node-B" =
        some { callsign := "NEW", node_id := "node-B", last_seen := 42,
               hop_count := 1, signal_strength := 9/10, battery_level := none,
               is_gateway := false, routes := [] } :=
  ⟨rfl, add_neighbor_resets_node c10_state "NEW" "node-B" (9/10) 42 c10_old rfl⟩

/-- States reachable when `add_neighbor` is never invoked with the local
node's own id — the side condition of the amended claim C1. -/
inductive MeshNetwork.ReachableNS : MeshNetwork → Prop
  | init (callsign : String) (t : ℚ) : MeshNetwork.ReachableNS (MeshNetwork.init callsign t)
  | add_neighbor {s : MeshNetwork} (callsign node_id : String) (signal_strength now : ℚ) :
      MeshNetwork.ReachableNS s → node_id ≠ s.local_node_id →
      MeshNetwork.ReachableNS (s.add_neighbor callsign node_id signal_strength now)
  | process {s : MeshNetwork} (from_node : String) (routes : List Announce) (now : ℚ) :
      MeshNetwork.ReachableNS s →
      MeshNetwork.ReachableNS (s.process_route_announcement from_node routes now)
  | cleanup_routes {s : MeshNetwork} (now : ℚ) :
      MeshNetwork.ReachableNS s → MeshNetwork.ReachableNS (s.cleanup_stale_routes now)
  | cleanup_nodes {s : MeshNetwork} (now : ℚ) :
      MeshNetwork.ReachableNS s → MeshNetwork.ReachableNS (s.cleanup_stale_nodes now)

/-- Any route surviving `processOne` either was already in the table or is
the freshly installed one, which carries the destination and effective hop
count that passed the two skip checks. -/
lemma processOne_inv {local_node_id : String} {max_hop_count : ℤ} {now : ℚ}
    {from_node : String} {rt : String → Option RouteInfo} {a : Announce}
    (P : RouteInfo → Prop)
    (hnew : ∀ dst (hp : ℤ) (m : RouteMetric) (bw : ℚ), ¬ hp + 1 > max_hop_count →
      dst ≠ local_node_id →
      P { destination := dst, next_hop := from_node, hop_count := hp + 1,
          metric := m, last_updated := now, bandwidth_estimate := bw })
    (hinv : ∀ d r, rt d = some r → P r) :
    ∀ d r, (MeshNetwork.processOne local_node_id max_hop_count now from_node rt a).table
      d = some r → P r := by
  cases hdest : a.destination with
  | none =>
    simpa [MeshNetwork.processOne, hdest, ProcResult.table] using hinv
  | some dst =>
    cases hhop : a.hop_count with
    | none =>
      simpa [MeshNetwork.processOne, hdest, hhop, ProcResult.table] using hinv
    | some hp =>
      simp only [MeshNetwork.processOne, hdest, hhop]
      by_cases hc1 : hp + 1 > max_hop_count
      · rw [if_pos hc1]
        exact hinv
      · rw [if_neg hc1]
        by_cases hc2 : dst = local_node_id
        · rw [if_pos hc2]
          exact hinv
        · rw [if_neg hc2]
          by_cases hc3 : (match rt dst with
              | none => true
              | some existing_route =>
                MeshNetwork.is_better_route
                  (MeshNetwork.calculate_metric (a.signal_strength.getD 0) (hp + 1))
                  (hp + 1) existing_route) = true
          · rw [if_pos hc3]
            intro d r hr
            simp only [ProcResult.table] at hr
            by_cases hd : d = dst
            · rw [hd, if_pos rfl] at hr
              cases Option.some.inj hr
              exact hnew dst hp _ _ hc1 hc2
            · rw [if_neg hd] at hr
              exact hinv d r hr
          · rw [if_neg hc3]
            exact hinv

/-- Lemma `processOne_inv` lifted to a whole batch. -/
lemma processList_inv {local_node_id : String} {max_hop_count : ℤ} {now : ℚ}
    {from_node : String} (P : RouteInfo → Prop)
    (hnew : ∀ dst (hp : ℤ) (m : RouteMetric) (bw : ℚ), ¬ hp + 1 > max_hop_count →
      dst ≠ local_node_id →
      P { destination := dst, next_hop := from_node, hop_count := hp + 1,
          metric := m, last_updated := now, bandwidth_estimate := bw }) :
    ∀ (routes : List Announce) (rt : String → Option RouteInfo),
      (∀ d r, rt d = some r → P r) →
      ∀ d r, (MeshNetwork.processList local_node_id max_hop_count now from_node rt
        routes).table d = some r → P r := by
  intro routes
  induction routes with
  | nil => intro rt hinv; simpa [MeshNetwork.processList, ProcResult.table] using hinv
  | cons a rest ih =>
    intro rt hinv
    have hone := processOne_inv (a := a) P hnew hinv
    simp only [MeshNetwork.processList]
    cases hres : MeshNetwork.processOne local_node_id max_hop_count now from_node rt a with
    | keyError rt' =>
      have : rt' = (MeshNetwork.processOne local_node_id max_hop_count now from_node
          rt a).table := by rw [hres]; rfl
      simpa [ProcResult.table, this] using hone
    | ok rt' =>
      have hrt' : ∀ d r, rt' d = some r → P r := by
        have : rt' = (MeshNetwork.processOne local_node_id max_hop_count now from_node
            rt a).table := by rw [hres]; rfl
        simpa [this] using hone
      exact ih rt' hrt'

/-- A route kept by `_cleanup_stale_routes` was in the table before. -/
lemma cleanup_routes_subset {s : MeshNetwork} {now : ℚ} {d : String} {r : RouteInfo}
    (hr : (s.cleanup_stale_routes now).routing_table d = some r) :
    s.routing_table d = some r := by
  simp only [MeshNetwork.cleanup_stale_routes] at hr
  cases hrt : s.routing_table d with
  | none =>
    simp only [hrt] at hr
    exact hr
  | some route =>
    simp only [hrt] at hr
    by_cases hst : now - route.last_updated > s.route_update_interval * 3
    · rw [if_pos hst] at hr
      exact absurd hr (by simp)
    · rw [if_neg hst] at hr
      exact hr

/-- Combined inductive invariant for the amended C1, under no-self-add
reachability: the hop bound is at least 1 and every table entry routes away
from the local node within the bound. -/
lemma reachableNS_inv {s : MeshNetwork} (hr : MeshNetwork.ReachableNS s) :
    1 ≤ s.max_hop_count ∧
      ∀ d r, s.routing_table d = some r →
        r.destination ≠ s.local_node_id ∧ r.hop_count ≤ s.max_hop_count := by
  induction hr with
  | init callsign t =>
    refine ⟨by norm_num [MeshNetwork.init], ?_⟩
    intro d r hr
    simp [MeshNetwork.init] at hr
  | @add_neighbor s callsign node_id signal_strength now hs hne ih =>
    refine ⟨ih.1, ?_⟩
    intro d r hr
    simp only [MeshNetwork.add_neighbor] at hr ⊢
    by_cases hd : d = node_id
    · rw [hd, if_pos rfl] at hr
      cases Option.some.inj hr
      exact ⟨hne, ih.1⟩
    · rw [if_neg hd] at hr
      exact ih.2 d r hr
  | @process s from_node routes now hs ih =>
    refine ⟨ih.1, ?_⟩
    simp only [MeshNetwork.process_route_announcement]
    exact processList_inv
      (fun r => r.destination ≠ s.local_node_id ∧ r.hop_count ≤ s.max_hop_count)
      (fun dst hp m bw hhp hdst => ⟨hdst, show hp + 1 ≤ s.max_hop_count by omega⟩)
      routes _ ih.2
  | @cleanup_routes s now hs ih =>
    exact ⟨ih.1, fun d r hr => ih.2 d r (cleanup_routes_subset hr)⟩
  | @cleanup_nodes s now hs ih =>
    exact ⟨ih.1, fun d r hr => ih.2 d r hr⟩

/-- Hop-count half of the invariant under unrestricted reachability. -/
lemma reachable_hop_inv {s : MeshNetwork} (hr : MeshNetwork.Reachable s) :
    1 ≤ s.max_hop_count ∧
      ∀ d r, s.routing_table d = some r → r.hop_count ≤ s.max_hop_count := by
  induction hr with
  | init callsign t =>
    refine ⟨by norm_num [MeshNetwork.init], ?_⟩
    intro d r hr
    simp [MeshNetwork.init] at hr
  | @add_neighbor s callsign node_id signal_strength now hs ih =>
    refine ⟨ih.1, ?_⟩
    intro d r hr
    simp only [MeshNetwork.add_neighbor] at hr ⊢
    by_cases hd : d = node_id
    · rw [hd, if_pos rfl] at hr
      cases Option.some.inj hr
      exact ih.1
    · rw [if_neg hd] at hr
      exact ih.2 d r hr
  | @process s from_node routes now hs ih =>
    refine ⟨ih.1, ?_⟩
    simp only [MeshNetwork.process_route_announcement]
    exact processList_inv (fun r => r.hop_count ≤ s.max_hop_count)
      (fun dst hp m bw hhp hdst => show hp + 1 ≤ s.max_hop_count by omega)
      routes _ ih.2
  | @cleanup_routes s now hs ih =>
    exact ⟨ih.1, fun d r hr => ih.2 d r (cleanup_routes_subset hr)⟩
  | @cleanup_nodes s now hs ih =>
    exact ⟨ih.1, fun d r hr => ih.2 d r hr⟩

/-- Counterexample to C1 as stated: `add_neighbor` performs no self-check,
so calling it with the local node's own id — a reachable step — installs a
routing-table entry whose destination IS the local node id. The final
conjunct is the negation of the claim. -/
theorem self_route_counterexample :
    MeshNetwork.Reachable ((MeshNetwork.init "TEST" 0).add_neighbor "TEST" "TEST-0" (1/2) 1) ∧
    ((MeshNetwork.init "TEST" 0).add_neighbor "TEST" "TEST-0" (1/2) 1).local_node_id =
      "TEST-0" ∧
    ((MeshNetwork.init "TEST" 0).add_neighbor "TEST" "TEST-0" (1/2) 1).routing_table
        "TEST-0" =
      some { destination := "TEST-0", next_hop := "TEST-0", hop_count := 1,
             metric := .FAIR, last_updated := 1, bandwidth_estimate := 25 } ∧
    ¬ (∀ s, MeshNetwork.Reachable s → ∀ d r, s.routing_table d = some r →
        r.destination ≠ s.local_node_id ∧ r.hop_count ≤ s.max_hop_count) := by
  have hreach : MeshNetwork.Reachable
      ((MeshNetwork.init "TEST" 0).add_neighbor "TEST" "TEST-0" (1/2) 1) :=
    MeshNetwork.Reachable.add_neighbor "TEST" "TEST-0" (1/2) 1
      (MeshNetwork.Reachable.init "TEST" 0)
  have hloc : ((MeshNetwork.init "TEST" 0).add_neighbor "TEST" "TEST-0"
      (1/2) 1).local_node_id = "TEST-0" := rfl
  have hrt : ((MeshNetwork.init "TEST" 0).add_neighbor "TEST" "TEST-0"
      (1/2) 1).routing_table "TEST-0" =
      some { destination := "TEST-0", next_hop := "TEST-0", hop_count := 1,
             metric := .FAIR, last_updated := 1, bandwidth_estimate := 25 } := by
    norm_num [MeshNetwork.add_neighbor, MeshNetwork.calculate_metric,
      MeshNetwork.estimate_bandwidth]
  refine ⟨hreach, hloc, hrt, fun hclaim => ?_⟩
  exact (hclaim _ hreach "TEST-0" _ hrt).1 hloc.symm

/-- C1 amended: in every reachable state each installed entry's hop count is
at most the configured `maxHopCount`; the no-self-destination half holds in
every state reachable without ever calling `add_neighbor` on the local node's
own id (the code performs no self-check in `add_neighbor`). -/
theorem routing_table_invariant :
    (∀ s, MeshNetwork.Reachable s → ∀ d r, s.routing_table d = some r →
      r.hop_count ≤ s.max_hop_count) ∧
    (∀ s, MeshNetwork.ReachableNS s → ∀ d r, s.routing_table d = some r →
      r.destination ≠ s.local_node_id ∧ r.hop_count ≤ s.max_hop_count) :=
  ⟨fun _ hr => (reachable_hop_inv hr).2, fun _ hr => (reachableNS_inv hr).2⟩

/-- Witness for the amended C1 at a concrete reachable state. -/
theorem routing_table_invariant_witness :
    MeshNetwork.ReachableNS ((MeshNetwork.init "TEST" 0).add_neighbor "REL" "node-A"
      (9/10) 1) ∧
    (((MeshNetwork.init "TEST" 0).add_neighbor "REL" "node-A" (9/10) 1).routing_table
        "node-A").isSome = true ∧
    (∀ d r, ((MeshNetwork.init "TEST" 0).add_neighbor "REL" "node-A"
        (9/10) 1).routing_table d = some r →
      r.destination ≠ ((MeshNetwork.init "TEST" 0).add_neighbor "REL" "node-A"
        (9/10) 1).local_node_id ∧
      r.hop_count ≤ ((MeshNetwork.init "TEST" 0).add_neighbor "REL" "node-A"
        (9/10) 1).max_hop_count) := by
  have hns : MeshNetwork.ReachableNS ((MeshNetwork.init "TEST" 0).add_neighbor "REL"
      "node-A" (9/10) 1) :=
    MeshNetwork.ReachableNS.add_neighbor "REL" "node-A" (9/10) 1
      (MeshNetwork.ReachableNS.init "TEST" 0) (by decide)
  exact ⟨hns, by decide, routing_table_invariant.2 _ hns⟩

example : MeshNetwork.calculate_metric (9/10) 1 = .EXCELLENT := by
  norm_num [MeshNetwork.calculate_metric]
example : MeshNetwork.calculate_metric (9/10) 2 = .GOOD := by
  norm_num [MeshNetwork.calculate_metric]
example : MeshNetwork.calculate_metric 0 3 = .UNREACHABLE := by
  norm_num [MeshNetwork.calculate_metric]
example : MeshNetwork.estimate_bandwidth (1/2) = 25 := by
  norm_num [MeshNetwork.estimate_bandwidth]
example : MeshNetwork.is_better_route .GOOD 2
    { destination := "b", next_hop := "a", hop_count := 3, metric := .GOOD,
      last_updated := 0, bandwidth_estimate := 0 } = true := by
  norm_num [MeshNetwork.is_better_route, RouteMetric.value]
example : MeshNetwork.is_better_route .FAIR 1
    { destination := "b", next_hop := "a", hop_count := 3, metric := .GOOD,
      last_updated := 0, bandwidth_estimate := 0 } = false := by
  norm_num [MeshNetwork.is_better_route, RouteMetric.value]
